import Mathlib

/-!
Shallow embedding of the MowthosOS cloud device session & command dispatch
subsystem (`src/services/mower/service.py` and `src/services/base.py`).

The collaborator layer (HTTP login client, cloud gateway, MQTT transport,
device command queue) is modelled as an oracle trace: a list of outcomes,
one consumed per collaborator invocation.  Every invocation is recorded in
an event log so that theorems can count collaborator calls and inspect the
order of commands sent.  Delays (`asyncio.sleep`, backoff sleeps) are
recorded as `sleep` events with rational durations; `random.uniform(a, b)`
is modelled by an unspecified draw function `Env.draw` supplied by the
environment.
-/

deriving instance DecidableEq for Except

namespace MowthosOS

/-- A classified error.  `setup code iotId` models PyMammotion's
`SetupException` with `e.args == (error_code, iot_id)`; `other msg` models
every other Python exception, identified by its message. -/
inductive PyError : Type
  | setup (code : Int) (iotId : String)
  | other (msg : String)
deriving Repr, DecidableEq

/-- Outcome of a single collaborator invocation, as given by the oracle trace. -/
inductive CallOutcome : Type
  | ok
  | fail (e : PyError)
deriving Repr, DecidableEq

/-- Observable events of an execution: collaborator invocations (with the
command/operation name and the integer parameters passed), sleeps, and
the fire-and-forget `mqtt_client.connect_async()` call. -/
inductive Ev : Type
  | call (name : String) (args : List (String × Int))
  | sleep (duration : ℚ)
  | connectAsync
deriving Repr, DecidableEq

/-- The session object shape the service code references (`session.account`,
`session.password`, `session.devices`, `session.communication_setup`).

Note: the Pydantic schema `models/schemas.py:MowerSession` declares
`session_id`, `account`, `devices`, `created_at`, `last_activity` — neither
`password` nor `communication_setup` — and `_create_session` never passes
the required `last_activity`, so in the running program the constructor
always raises and no value of this type is ever created (see
`create_session` below).  The structure exists so that states with sessions
can be expressed at all; `communication_setup` models the dict the marking
loop of `_ensure_device_communication` would attach, with the absent dict
read through `.get(device_name, False)` modelled as an empty association
list defaulting to `false`. -/
structure MowerSession : Type where
  session_id : String
  account : String
  password : String
  devices : List String
  communication_setup : List (String × Bool)
deriving Repr, DecidableEq

/-- A device known to `self.mammotion.device_manager`.  `hasCloud` models
`device.cloud()` being non-None; `stopped` models `cloud_device.stopped`. -/
structure DeviceEntry : Type where
  name : String
  hasCloud : Bool
  stopped : Bool
deriving Repr, DecidableEq

/-- The mutable state threaded through the service: the remaining oracle
trace, the event log, `self.active_sessions` (in insertion order, as Python
dict iteration yields them), `self.mammotion.device_manager`'s devices,
`self.device_cache` (names only), and a counter standing in for
`datetime.now().timestamp()` when minting session ids. -/
structure St : Type where
  trace : List CallOutcome
  log : List Ev
  active_sessions : List MowerSession
  device_manager : List DeviceEntry
  device_cache : List String
  next_stamp : Nat
deriving Repr, DecidableEq

/-- Read-only environment: payload facts observed from the collaborators
(`login_info` truthiness, session response presence, the returned
`identityId`, the account's device names from
`devices_by_account_response`), and the `random.uniform` draw function. -/
structure Env : Type where
  loginInfoPresent : Bool
  sessionRespPresent : Bool
  identityId : String
  accountDevices : List String
  draw : ℚ → ℚ → ℚ

/-- Sequencing of fallible state-passing computations (Python control flow:
an exception propagates, otherwise execution continues). -/
def andThen {α β : Type} (r : Except PyError α × St)
    (f : α → St → Except PyError β × St) : Except PyError β × St :=
  match r with
  | (Except.error e, s) => (Except.error e, s)
  | (Except.ok a, s) => f a s

/-- One collaborator invocation: logs the call and consumes the next
outcome of the oracle trace.  An exhausted trace is reported as an error
(no execution in any theorem below runs off the end of its trace).
The log is kept newest-first; `call_names` below restores chronological
order. -/
def cloud_call (name : String) (args : List (String × Int)) (s : St) :
    Except PyError Unit × St :=
  match s.trace with
  | [] => (Except.error (PyError.other "collaborator trace exhausted"),
           { s with log := Ev.call name args :: s.log })
  | o :: rest =>
    let s1 := { s with trace := rest, log := Ev.call name args :: s.log }
    match o with
    | CallOutcome.ok => (Except.ok (), s1)
    | CallOutcome.fail e => (Except.error e, s1)

/-- Record an `asyncio.sleep(d)` (newest-first, like `cloud_call`). -/
def push_sleep (d : ℚ) (s : St) : St :=
  { s with log := Ev.sleep d :: s.log }

/-- `min(delay * (2 ** attempt), max_delay)` — `base.py` line 91
(`delay` is never reassigned, so it stays `initial_delay`). -/
def backoff_delay (initial_delay max_delay : ℚ) (attempt : Nat) : ℚ :=
  min (initial_delay * 2 ^ attempt) max_delay

/-- `base.py` lines 92-93: with jitter the sleep is
`random.uniform(0.5 * sleep_time, sleep_time)`, modelled by the
environment's draw function; without jitter it is the computed delay. -/
def realized_sleep (draw : ℚ → ℚ → ℚ) (jitter : Bool) (d : ℚ) : ℚ :=
  if jitter then draw ((1 : ℚ)/2 * d) d else d

/-- Loop body of `BaseService.exponential_backoff` (`base.py` lines 83-98):
`remaining` counts the iterations left in `range(max_retries)` and
`attempt` is the current index.  On success return the value; on the last
attempt (`attempt == max_retries - 1`) re-raise the error unchanged;
otherwise sleep the (possibly jittered) backoff delay and retry. -/
def backoffAux {α : Type} (env : Env) (op : St → Except PyError α × St)
    (max_retries : Nat) (initial_delay max_delay : ℚ) (jitter : Bool) :
    Nat → Nat → St → Except PyError (Option α) × St
  | 0, _, s => (Except.ok none, s)
  | remaining + 1, attempt, s =>
    match op s with
    | (Except.ok a, s1) => (Except.ok (some a), s1)
    | (Except.error e, s1) =>
      if attempt = max_retries - 1 then
        (Except.error e, s1)
      else
        let d := backoff_delay initial_delay max_delay attempt
        let r := realized_sleep env.draw jitter d
        backoffAux env op max_retries initial_delay max_delay jitter
          remaining (attempt + 1) (push_sleep r s1)

/-- `BaseService.exponential_backoff(func, max_retries, initial_delay,
max_delay, jitter)`.  With `max_retries = 0` the Python `for` loop body
never runs and the function falls through returning `None` (`ok none`). -/
def exponential_backoff {α : Type} (env : Env) (op : St → Except PyError α × St)
    (max_retries : Nat) (initial_delay max_delay : ℚ) (jitter : Bool) (s : St) :
    Except PyError (Option α) × St :=
  backoffAux env op max_retries initial_delay max_delay jitter max_retries 0 s

/-- `dict.get(key, False)` on the dynamically attached
`communication_setup` dict. -/
def lookup_flag (l : List (String × Bool)) (k : String) : Bool :=
  match l.find? (fun p => p.1 = k) with
  | some p => p.2
  | none => false

/-- `d[key] = value` on an association list. -/
def set_flag (l : List (String × Bool)) (k : String) (v : Bool) :
    List (String × Bool) :=
  if l.any (fun p => p.1 = k) then
    l.map (fun p => if p.1 = k then (k, v) else p)
  else
    l ++ [(k, v)]

/-- `MowerService._get_device` (`service.py` lines 363-368): look the device
up in the global device manager or raise `"Device '<name>' not found"`.
Pure: it makes no collaborator call and mutates nothing. -/
def get_device (s : St) (device_name : String) : Except PyError DeviceEntry :=
  match s.device_manager.find? (fun d => d.name = device_name) with
  | some d => Except.ok d
  | none => Except.error (PyError.other ("Device '" ++ device_name ++ "' not found"))

/-- `MowerService._establish_cloud_connection` (`service.py` lines 384-425):
six gateway steps, each wrapped in `exponential_backoff(max_retries=3,
initial_delay=2.0)` (defaults `max_delay=10.0`, `jitter=True`), with an
`asyncio.sleep(0.5)` after each of the first five. -/
def establish_cloud_connection (env : Env) (s : St) : Except PyError Unit × St :=
  andThen (exponential_backoff env (cloud_call "get_region" []) 3 2 10 true s) fun _ s =>
  andThen (exponential_backoff env (cloud_call "connect" []) 3 2 10 true (push_sleep ((1 : ℚ)/2) s)) fun _ s =>
  andThen (exponential_backoff env (cloud_call "login_by_oauth" []) 3 2 10 true (push_sleep ((1 : ℚ)/2) s)) fun _ s =>
  andThen (exponential_backoff env (cloud_call "aep_handle" []) 3 2 10 true (push_sleep ((1 : ℚ)/2) s)) fun _ s =>
  andThen (exponential_backoff env (cloud_call "session_by_auth_code" []) 3 2 10 true (push_sleep ((1 : ℚ)/2) s)) fun _ s =>
  andThen (exponential_backoff env (cloud_call "get_all_error_codes" []) 3 2 10 true (push_sleep ((1 : ℚ)/2) s)) fun _ s =>
  (Except.ok (), s)

/-- `MowerService._create_mqtt_client` (`service.py` lines 427-446): raise if
the session response is absent, raise `"identityId is missing from session
response"` if the returned identity is blank (Python truthiness: `None` or
`""`), otherwise build the MQTT client and fire `connect_async()`. -/
def create_mqtt_client (env : Env) (s : St) : Except PyError Unit × St :=
  if env.sessionRespPresent = false then
    (Except.error (PyError.other "No session response received"), s)
  else if env.identityId = "" then
    (Except.error (PyError.other "identityId is missing from session response"), s)
  else
    (Except.ok (), { s with log := Ev.connectAsync :: s.log })

/-- Structural prefix test on character lists (Python `str.startswith`;
`String.startsWith` itself is avoided because its byte-level loop is not
kernel-reducible). -/
def prefixOfChars : List Char → List Char → Bool
  | [], _ => true
  | _ :: _, [] => false
  | c :: cs, d :: ds => c = d && prefixOfChars cs ds

/-- `device.deviceName.startswith(("Luba-", "Yuka-"))`
(`service.py` line 459). -/
def compatible (n : String) : Bool :=
  prefixOfChars "Luba-".data n.data || prefixOfChars "Yuka-".data n.data

/-- Loop body of `MowerService._create_device_managers` (`service.py` lines
457-493): for each account device whose name starts with `"Luba-"` or
`"Yuka-"`, create a `MammotionMixedDeviceManager` if the name is new
(initially `stopped = True`) or rebind the MQTT client of the existing one,
and collect the name. -/
def register_devices (names : List String) (mgr : List DeviceEntry) :
    List String × List DeviceEntry :=
  match names with
  | [] => ([], mgr)
  | n :: rest =>
    if compatible n then
      let mgr1 :=
        if mgr.any (fun d => d.name = n) then mgr
        else mgr ++ [{ name := n, hasCloud := true, stopped := true }]
      let (ns, mgr2) := register_devices rest mgr1
      (n :: ns, mgr2)
    else
      register_devices rest mgr

/-- `MowerService._create_device_managers` (`service.py` lines 448-493).
An absent or empty `devices_by_account_response` is modelled by
`env.accountDevices = []` (the source returns `[]`). -/
def create_device_managers (env : Env) (s : St) : Except PyError (List String) × St :=
  let r := register_devices env.accountDevices s.device_manager
  (Except.ok r.1, { s with device_manager := r.2 })

/-- `MowerService._create_session` (`service.py` lines 370-382): mints a
session id, then constructs the repository's own Pydantic model
`MowerSession` (`models/schemas.py` lines 64-70).  That schema requires
`session_id`, `account`, `devices`, `created_at` and `last_activity`; the
service passes `session_id`, `account`, `password`, `devices`,
`created_at` and `expires_at` — `last_activity` is never passed — so the
constructor raises a `ValidationError` on every call (the undeclared
`password`/`expires_at` kwargs aside).  Consequently no session is ever
stored in `active_sessions` and the function never returns a session id;
the error propagates out of `authenticate_user`. -/
def create_session (account password : String) (devs : List String) (s : St) :
    Except PyError String × St :=
  (Except.error
     (PyError.other "ValidationError: MowerSession last_activity field required"), s)

/-- `MowerService.authenticate_user` (`service.py` lines 50-105): login with
retry, check `login_info`, run the cloud connection sequence, build the MQTT
client, create the device managers, fail if no compatible device was found,
otherwise create and return a session.  (The source's `try/except` merely
logs and re-raises, so it is semantically the identity.) -/
def authenticate_user (env : Env) (account password : String) (s : St) :
    Except PyError String × St :=
  andThen (exponential_backoff env (cloud_call "login" []) 3 2 10 true s) fun _ s =>
  if env.loginInfoPresent = false then
    (Except.error (PyError.other "Login failed: No login info received"), s)
  else
    andThen (establish_cloud_connection env s) fun _ s =>
    andThen (create_mqtt_client env s) fun _ s =>
    andThen (create_device_managers env s) fun devs s =>
    if devs.isEmpty then
      (Except.error (PyError.other "No compatible devices found for this account"), s)
    else
      create_session account password devs s

/-- The guard `_ensure_device_communication` checks before bootstrapping
(`service.py` lines 504-506): some active session lists the device and has
`communication_setup.get(device_name, False)` true. -/
def bootstrapDone (s : St) (device_name : String) : Bool :=
  s.active_sessions.any fun sess =>
    sess.devices.contains device_name && lookup_flag sess.communication_setup device_name

/-- The `sync_commands` table of `_ensure_device_communication`
(`service.py` lines 511-518): six commands, in source order. -/
def sync_commands : List (String × List (String × Int)) :=
  [("send_todev_ble_sync", [("sync_type", 3)]),
   ("get_report_cfg_stop", []),
   ("get_report_cfg", []),
   ("read_and_set_rtk_paring_code", [("op", 1)]),
   ("send_todev_ble_sync", [("sync_type", 3)]),
   ("read_and_set_rtk_paring_code", [("op", 1)])]

/-- The command loop of `_ensure_device_communication` (`service.py` lines
520-526): each command wrapped in `exponential_backoff(max_retries=3,
initial_delay=2.0)` and followed by `asyncio.sleep(1)`. -/
def run_sync_commands (env : Env) :
    List (String × List (String × Int)) → St → Except PyError Unit × St
  | [], s => (Except.ok (), s)
  | (cmd, args) :: rest, s =>
    andThen (exponential_backoff env (cloud_call cmd args) 3 2 10 true s) fun _ s =>
    run_sync_commands env rest (push_sleep 1 s)

/-- `cloud_device.stopped = False` (`service.py` line 509). -/
def set_stopped (device_name : String) (b : Bool) (mgr : List DeviceEntry) :
    List DeviceEntry :=
  mgr.map fun d => if d.name = device_name then { d with stopped := b } else d

/-- The marking loop of `_ensure_device_communication` (`service.py` lines
529-534): set `communication_setup[device_name] = True` on the first active
session listing the device, then `break`. -/
def mark_setup (device_name : String) : List MowerSession → List MowerSession
  | [] => []
  | sess :: rest =>
    if sess.devices.contains device_name then
      { sess with communication_setup := set_flag sess.communication_setup device_name true } :: rest
    else
      sess :: mark_setup device_name rest

/-- `MowerService._ensure_device_communication` (`service.py` lines
495-534): resolve the device, require a cloud device, return immediately if
some session already records the setup as done, otherwise clear `stopped`,
run the six sync commands (each with backoff and 1s pacing), and mark the
setup done. -/
def ensure_device_communication (env : Env) (device_name : String) (s : St) :
    Except PyError Unit × St :=
  match get_device s device_name with
  | Except.error e => (Except.error e, s)
  | Except.ok dev =>
    if dev.hasCloud = false then
      (Except.error (PyError.other "Cloud device not available"), s)
    else if bootstrapDone s device_name then
      (Except.ok (), s)
    else
      let s := { s with device_manager := set_stopped device_name false s.device_manager }
      andThen (run_sync_commands env sync_commands s) fun _ s =>
      (Except.ok (), { s with active_sessions := mark_setup device_name s.active_sessions })

/-- First active session listing the device (`service.py` lines 541-545). -/
def find_session_for (s : St) (device_name : String) : Option MowerSession :=
  s.active_sessions.find? fun sess => sess.devices.contains device_name

/-- `MowerService._refresh_cloud_session` (`service.py` lines 536-551):
resolve the device, find the session holding it (or raise), and
re-authenticate with the stored account and password. -/
def refresh_cloud_session (env : Env) (device_name : String) (s : St) :
    Except PyError Unit × St :=
  match get_device s device_name with
  | Except.error e => (Except.error e, s)
  | Except.ok _ =>
    match find_session_for s device_name with
    | none => (Except.error (PyError.other "No active session found for device"), s)
    | some sess =>
      andThen (authenticate_user env sess.account sess.password s) fun _ s =>
      (Except.ok (), s)

/-- The `command_map` table of `execute_command` (`service.py` lines
213-221). -/
def command_map (c : String) : Option String :=
  if c = "start_mowing" then some "start_job"
  else if c = "stop_mowing" then some "cancel_job"
  else if c = "pause_mowing" then some "pause_execute_task"
  else if c = "resume_mowing" then some "resume_execute_task"
  else if c = "return_to_dock" then some "return_to_dock"
  else if c = "start_zone_mowing" then some "start_job"
  else if c = "emergency_stop" then some "emergency_stop"
  else none

/-- The command object as `execute_command` reads it (`command.command`,
`command.parameters`); an absent/empty parameter dict is the empty list. -/
structure MowerCommand : Type where
  command : String
  parameters : List (String × Int)
deriving Repr, DecidableEq

/-- The `try` body of `MowerService.execute_command` (`service.py` lines
200-237): resolve the device, require a cloud device, ensure communication,
map the logical command (raising `"Unknown command: <kind>"` on an unknown
kind), send the mapped command through the device queue, and on success
evict the device's status cache entry and return `True`. -/
def execute_command_body (env : Env) (device_name : String) (cmd : MowerCommand)
    (s : St) : Except PyError Bool × St :=
  match get_device s device_name with
  | Except.error e => (Except.error e, s)
  | Except.ok dev =>
    if dev.hasCloud = false then
      (Except.error (PyError.other "Cloud device not available"), s)
    else
      andThen (ensure_device_communication env device_name s) fun _ s =>
      match command_map cmd.command with
      | none => (Except.error (PyError.other ("Unknown command: " ++ cmd.command)), s)
      | some pcmd =>
        andThen (cloud_call pcmd cmd.parameters s) fun _ s =>
        (Except.ok true, { s with device_cache := s.device_cache.filter (fun n => n ≠ device_name) })

/-- `MowerService.execute_command` (`service.py` lines 190-253), exception
handlers included: a `SetupException` with `error_code == 29003` triggers
`_refresh_cloud_session` followed by a recursive call
`return await self.execute_command(device_name, command)`; any other error
is re-raised unchanged.

The source recursion carries no attempt counter and is unbounded; the
`fuel` parameter exists only to make the embedding total.  Exhausted fuel
yields the distinguished error `"recursion limit"`, which corresponds to no
source behavior — every theorem below supplies enough fuel for the
execution it describes. -/
def execute_command (env : Env) :
    Nat → String → MowerCommand → St → Except PyError Bool × St
  | 0, _, _, s => (Except.error (PyError.other "recursion limit"), s)
  | fuel + 1, device_name, cmd, s =>
    match execute_command_body env device_name cmd s with
    | (Except.ok b, s1) => (Except.ok b, s1)
    | (Except.error (PyError.setup code iotId), s1) =>
      if code = 29003 then
        andThen (refresh_cloud_session env device_name s1) fun _ s2 =>
        execute_command env fuel device_name cmd s2
      else
        (Except.error (PyError.setup code iotId), s1)
    | (Except.error e, s1) => (Except.error e, s1)

/-- Number of collaborator invocations named `name` in a log. -/
def count_calls (log : List Ev) (name : String) : Nat :=
  (log.filter fun e =>
    match e with
    | Ev.call n _ => n = name
    | _ => false).length

/-- Total number of collaborator invocations in a log. -/
def collaborator_calls (log : List Ev) : Nat :=
  (log.filter fun e =>
    match e with
    | Ev.call _ _ => true
    | _ => false).length

/-- The names of the collaborator invocations of a log, in chronological
order (the log itself is newest-first). -/
def call_names (log : List Ev) : List String :=
  log.reverse.filterMap fun e =>
    match e with
    | Ev.call n _ => some n
    | _ => none

/-- The log in chronological order. -/
def chron_log (log : List Ev) : List Ev := log.reverse

/-! ### Concrete fixtures used by counterexamples and witnesses -/

/-- A registered cloud device. -/
def dev1 : DeviceEntry := { name := "Luba-1", hasCloud := true, stopped := false }

/-- A session whose device communication is already set up. -/
def sess0 : MowerSession :=
  { session_id := "alice_0", account := "alice", password := "pw",
    devices := ["Luba-1"], communication_setup := [("Luba-1", true)] }

/-- A session whose device communication has not been set up yet. -/
def sessFresh : MowerSession :=
  { session_id := "alice_0", account := "alice", password := "pw",
    devices := ["Luba-1"], communication_setup := [] }

/-- A benign environment: login payload present, session response present
with a non-blank identity, one compatible account device, and a draw
function returning the lower end of the interval. -/
def env0 : Env :=
  { loginInfoPresent := true, sessionRespPresent := true, identityId := "id-1",
    accountDevices := ["Luba-1"], draw := fun a _ => a }

/-- A start-mowing dispatch request. -/
def startCmd : MowerCommand := { command := "start_mowing", parameters := [] }

/-- A dispatch request with an unknown command kind. -/
def flyCmd : MowerCommand := { command := "fly", parameters := [] }

/-- `n` successful collaborator outcomes. -/
def okRounds (n : Nat) : List CallOutcome := List.replicate n CallOutcome.ok

/-- A state whose device has not been bootstrapped, with `n` successful
outcomes queued. -/
def fresh_state (n : Nat) : St :=
  { trace := okRounds n, log := [], active_sessions := [sessFresh],
    device_manager := [dev1], device_cache := [], next_stamp := 1 }

/-- State for the non-29003 cloud-error run: the send fails with error code
555, three unused successful outcomes remain queued behind it. -/
def s3_state : St :=
  { trace := CallOutcome.fail (PyError.setup 555 "iot-1") :: okRounds 3,
    log := [], active_sessions := [sess0], device_manager := [dev1],
    device_cache := [], next_stamp := 1 }

/-- State for the bootstrap-exhaustion run: the first bootstrap command
fails on all three backoff attempts. -/
def s5_state : St :=
  { trace := [CallOutcome.fail (PyError.other "boom1"),
              CallOutcome.fail (PyError.other "boom2"),
              CallOutcome.fail (PyError.other "boom3")],
    log := [], active_sessions := [sessFresh], device_manager := [dev1],
    device_cache := [], next_stamp := 1 }

/-- A state with no registered devices. -/
def ghost_state : St :=
  { trace := okRounds 3, log := [], active_sessions := [sess0],
    device_manager := [dev1], device_cache := [], next_stamp := 1 }

/-- The event block emitted by one successful pass of the bootstrap
sequence: the six sync commands, each followed by the 1-second pacing
sleep. -/
def boot_log : List Ev :=
  [Ev.call "send_todev_ble_sync" [("sync_type", 3)], Ev.sleep 1,
   Ev.call "get_report_cfg_stop" [], Ev.sleep 1,
   Ev.call "get_report_cfg" [], Ev.sleep 1,
   Ev.call "read_and_set_rtk_paring_code" [("op", 1)], Ev.sleep 1,
   Ev.call "send_todev_ble_sync" [("sync_type", 3)], Ev.sleep 1,
   Ev.call "read_and_set_rtk_paring_code" [("op", 1)], Ev.sleep 1]

/-- The event block of a login plus six-step handshake in which every
attempt succeeds immediately (`authenticate_user` up to the MQTT client
construction). -/
def handshake_log : List Ev :=
  [Ev.call "login" [], Ev.call "get_region" [], Ev.sleep ((1 : ℚ)/2),
   Ev.call "connect" [], Ev.sleep ((1 : ℚ)/2),
   Ev.call "login_by_oauth" [], Ev.sleep ((1 : ℚ)/2),
   Ev.call "aep_handle" [], Ev.sleep ((1 : ℚ)/2),
   Ev.call "session_by_auth_code" [], Ev.sleep ((1 : ℚ)/2),
   Ev.call "get_all_error_codes" []]

/-- A state whose next three collaborator outcomes are three distinct
generic failures. -/
def s8_state : St :=
  { trace := [CallOutcome.fail (PyError.other "e1"), CallOutcome.fail (PyError.other "e2"),
              CallOutcome.fail (PyError.other "e3")],
    log := [], active_sessions := [], device_manager := [], device_cache := [],
    next_stamp := 0 }

/-- The collaborator-operation names the service itself issues (login, the
six gateway handshake steps, and the six bootstrap sync commands); every
mapped dispatch command name lies outside this list. -/
def internal_call_names : List String :=
  ["login", "get_region", "connect", "login_by_oauth", "aep_handle",
   "session_by_auth_code", "get_all_error_codes",
   "send_todev_ble_sync", "get_report_cfg_stop", "get_report_cfg",
   "read_and_set_rtk_paring_code"]

/-- A state with an empty session store (the only kind reachable in the
running program), one registered cloud device, and six successful outcomes
queued. -/
def nosess_state : St :=
  { trace := okRounds 6, log := [], active_sessions := [], device_manager := [dev1],
    device_cache := [], next_stamp := 1 }

/-! ### Helper lemmas -/

theorem count_calls_append (l1 l2 : List Ev) (n : String) :
    count_calls (l1 ++ l2) n = count_calls l1 n + count_calls l2 n := by
  simp [count_calls, List.filter_append]

theorem collaborator_calls_append (l1 l2 : List Ev) :
    collaborator_calls (l1 ++ l2) = collaborator_calls l1 + collaborator_calls l2 := by
  simp [collaborator_calls, List.filter_append]

theorem count_calls_cons_hit (l : List Ev) (n : String) (args : List (String × Int)) :
    count_calls (Ev.call n args :: l) n = count_calls l n + 1 := by
  simp [count_calls, List.filter_cons]

/-- A single first-attempt success of a backoff-wrapped collaborator call:
it consumes one outcome and logs one call. -/
theorem backoff3_ok (env : Env) (name : String) (args : List (String × Int))
    (idl mdl : ℚ) (jit : Bool) (s : St) (rest : List CallOutcome)
    (h : s.trace = CallOutcome.ok :: rest) :
    exponential_backoff env (cloud_call name args) 3 idl mdl jit s =
      (Except.ok (some ()), { s with trace := rest, log := Ev.call name args :: s.log }) := by
  cases s
  simp only at h
  subst h
  rfl

/-- The six-step cloud connection sequence when every attempt succeeds
immediately. -/
theorem establish_ok (env : Env) (s : St) (rest : List CallOutcome)
    (h : s.trace = okRounds 6 ++ rest) :
    establish_cloud_connection env s =
      (Except.ok (), { s with
          trace := rest,
          log := ([Ev.call "get_region" [], Ev.sleep ((1 : ℚ)/2),
             Ev.call "connect" [], Ev.sleep ((1 : ℚ)/2),
             Ev.call "login_by_oauth" [], Ev.sleep ((1 : ℚ)/2),
             Ev.call "aep_handle" [], Ev.sleep ((1 : ℚ)/2),
             Ev.call "session_by_auth_code" [], Ev.sleep ((1 : ℚ)/2),
             Ev.call "get_all_error_codes" []]).reverse ++ s.log }) := by
  cases s
  simp only at h
  subst h
  rfl

theorem cloud_call_sessions (name : String) (args : List (String × Int)) (s : St) :
    ((cloud_call name args s).2).active_sessions = s.active_sessions := by
  unfold cloud_call
  rcases s with ⟨tr, lg, as, dm, dc, ns⟩
  cases tr with
  | nil => rfl
  | cons o rest => cases o <;> rfl

theorem backoffAux_sessions {α : Type} (env : Env) (op : St → Except PyError α × St)
    (mr : Nat) (idl mdl : ℚ) (jit : Bool)
    (hop : ∀ s, ((op s).2).active_sessions = s.active_sessions) :
    ∀ (rem att : Nat) (s : St),
      ((backoffAux env op mr idl mdl jit rem att s).2).active_sessions = s.active_sessions := by
  intro rem
  induction rem with
  | zero => intro att s; rfl
  | succ r ih =>
    intro att s
    have h1 := hop s
    unfold backoffAux
    rcases hop2 : op s with ⟨r0, s1⟩
    rw [hop2] at h1
    cases r0 with
    | ok a => exact h1
    | error e =>
      dsimp only
      by_cases hatt : att = mr - 1
      · rw [if_pos hatt]; exact h1
      · rw [if_neg hatt]
        rw [ih (att + 1) (push_sleep _ s1)]
        exact h1

theorem exponential_backoff_sessions {α : Type} (env : Env) (op : St → Except PyError α × St)
    (mr : Nat) (idl mdl : ℚ) (jit : Bool)
    (hop : ∀ s, ((op s).2).active_sessions = s.active_sessions) (s : St) :
    ((exponential_backoff env op mr idl mdl jit s).2).active_sessions = s.active_sessions :=
  backoffAux_sessions env op mr idl mdl jit hop mr 0 s

theorem andThen_sessions {α β : Type} (g : St → Except PyError α × St)
    (f : α → St → Except PyError β × St)
    (hg : ∀ s, ((g s).2).active_sessions = s.active_sessions)
    (hf : ∀ a s, ((f a s).2).active_sessions = s.active_sessions) (s : St) :
    ((andThen (g s) f).2).active_sessions = s.active_sessions := by
  have h := hg s
  rcases hgs : g s with ⟨r, s1⟩
  rw [hgs] at h
  cases r with
  | error e => simpa [andThen] using h
  | ok a =>
    simp only [andThen]
    rw [hf a s1]
    exact h

theorem establish_sessions (env : Env) (s : St) :
    ((establish_cloud_connection env s).2).active_sessions = s.active_sessions := by
  have hbo : ∀ (name : String) (args : List (String × Int)) (s : St),
      ((exponential_backoff env (cloud_call name args) 3 2 10 true s).2).active_sessions
        = s.active_sessions :=
    fun name args s => exponential_backoff_sessions env _ 3 2 10 true (cloud_call_sessions name args) s
  unfold establish_cloud_connection
  exact andThen_sessions
    (exponential_backoff env (cloud_call "get_region" []) 3 2 10 true) _
    (hbo _ _) (fun _ s =>
      andThen_sessions
        (fun s => exponential_backoff env (cloud_call "connect" []) 3 2 10 true (push_sleep ((1 : ℚ)/2) s)) _
        (fun s => hbo _ _ (push_sleep _ s)) (fun _ s =>
          andThen_sessions
            (fun s => exponential_backoff env (cloud_call "login_by_oauth" []) 3 2 10 true (push_sleep ((1 : ℚ)/2) s)) _
            (fun s => hbo _ _ (push_sleep _ s)) (fun _ s =>
              andThen_sessions
                (fun s => exponential_backoff env (cloud_call "aep_handle" []) 3 2 10 true (push_sleep ((1 : ℚ)/2) s)) _
                (fun s => hbo _ _ (push_sleep _ s)) (fun _ s =>
                  andThen_sessions
                    (fun s => exponential_backoff env (cloud_call "session_by_auth_code" []) 3 2 10 true (push_sleep ((1 : ℚ)/2) s)) _
                    (fun s => hbo _ _ (push_sleep _ s)) (fun _ s =>
                      andThen_sessions
                        (fun s => exponential_backoff env (cloud_call "get_all_error_codes" []) 3 2 10 true (push_sleep ((1 : ℚ)/2) s)) _
                        (fun s => hbo _ _ (push_sleep _ s)) (fun _ s => rfl) s) s) s) s) s) s

theorem create_mqtt_sessions (env : Env) (s : St) :
    ((create_mqtt_client env s).2).active_sessions = s.active_sessions := by
  unfold create_mqtt_client
  split_ifs <;> rfl

/-! ### Claim theorems -/

/-- C3, counterexample: a dispatch whose send fails with the non-29003
cloud error code 555 simply re-raises that error: exactly one send attempt
is made, no re-login (token refresh) is attempted, no retry happens, and
the three queued successful outcomes behind the failure are never consumed
— contradicting the claimed refresh-and-retry-once behaviour. -/
theorem C3_counterexample :
    (execute_command env0 5 "Luba-1" startCmd s3_state).1
      = Except.error (PyError.setup 555 "iot-1") ∧
    count_calls (execute_command env0 5 "Luba-1" startCmd s3_state).2.log "start_job" = 1 ∧
    count_calls (execute_command env0 5 "Luba-1" startCmd s3_state).2.log "login" = 0 ∧
    (execute_command env0 5 "Luba-1" startCmd s3_state).2.trace = okRounds 3 := by
  decide

/-- C4, counterexample: a fully successful bootstrap pass sends six
sub-commands — `sync(3)`, `stop-report-config`, `get-report-config`,
`rtk-pairing(1)`, `sync(3)`, `rtk-pairing(1)` — not the nine the claim
lists. -/
theorem C4_counterexample :
    (ensure_device_communication env0 "Luba-1" (fresh_state 6)).1 = Except.ok () ∧
    call_names (ensure_device_communication env0 "Luba-1" (fresh_state 6)).2.log =
      ["send_todev_ble_sync", "get_report_cfg_stop", "get_report_cfg",
       "read_and_set_rtk_paring_code", "send_todev_ble_sync",
       "read_and_set_rtk_paring_code"] ∧
    collaborator_calls (ensure_device_communication env0 "Luba-1" (fresh_state 6)).2.log = 6 ∧
    ¬ collaborator_calls (ensure_device_communication env0 "Luba-1" (fresh_state 6)).2.log = 9 := by
  decide

/-- C5, counterexample: when the first bootstrap step exhausts its three
backoff attempts (generic errors), the error propagates out of the dispatch
— the result is the last attempt's error, the requested command is never
sent, and bootstrap-done remains false — contradicting the claim that a
bootstrap failure does not raise and that dispatch proceeds to command
sending. -/
theorem C5_counterexample :
    (execute_command env0 5 "Luba-1" startCmd s5_state).1
      = Except.error (PyError.other "boom3") ∧
    count_calls (execute_command env0 5 "Luba-1" startCmd s5_state).2.log "start_job" = 0 ∧
    bootstrapDone (execute_command env0 5 "Luba-1" startCmd s5_state).2 "Luba-1" = false := by
  decide

/-- C6, counterexample: dispatching an unknown command kind to a
not-yet-bootstrapped device fails with "Unknown command", but only after
the device-communication setup has issued its six bootstrap sub-commands —
six collaborator calls, not the zero the claim asserts. -/
theorem C6_counterexample :
    (execute_command env0 5 "Luba-1" flyCmd (fresh_state 6)).1
      = Except.error (PyError.other "Unknown command: fly") ∧
    collaborator_calls (execute_command env0 5 "Luba-1" flyCmd (fresh_state 6)).2.log = 6 ∧
    ¬ collaborator_calls (execute_command env0 5 "Luba-1" flyCmd (fresh_state 6)).2.log = 0 := by
  decide

theorem lookup_flag_cons_hit (p : String × Bool) (rest : List (String × Bool)) (k : String)
    (h : p.1 = k) : lookup_flag (p :: rest) k = p.2 := by
  have hd : (decide (p.1 = k)) = true := decide_eq_true h
  simp only [lookup_flag, List.find?_cons, hd]

theorem lookup_flag_cons_miss (p : String × Bool) (rest : List (String × Bool)) (k : String)
    (h : ¬ p.1 = k) : lookup_flag (p :: rest) k = lookup_flag rest k := by
  have hd : (decide (p.1 = k)) = false := decide_eq_false h
  simp only [lookup_flag, List.find?_cons, hd]

theorem lookup_map_set (l : List (String × Bool)) (k : String)
    (h : l.any (fun p => p.1 = k) = true) :
    lookup_flag (l.map (fun p => if p.1 = k then (k, true) else p)) k = true := by
  induction l with
  | nil => simp at h
  | cons p rest ih =>
    by_cases h1 : p.1 = k
    · rw [List.map_cons, if_pos h1, lookup_flag_cons_hit (k, true) _ k rfl]
    · rw [List.map_cons, if_neg h1, lookup_flag_cons_miss p _ k h1]
      simp only [List.any_cons] at h
      have hd : (decide (p.1 = k)) = false := decide_eq_false h1
      rw [hd, Bool.false_or] at h
      exact ih h

theorem lookup_append_new (l : List (String × Bool)) (k : String)
    (h : l.any (fun p => p.1 = k) = false) :
    lookup_flag (l ++ [(k, true)]) k = true := by
  induction l with
  | nil => rw [List.nil_append, lookup_flag_cons_hit (k, true) [] k rfl]
  | cons p rest ih =>
    simp only [List.any_cons] at h
    cases hd : (decide (p.1 = k)) with
    | true =>
      rw [hd] at h
      simp at h
    | false =>
      rw [hd, Bool.false_or] at h
      rw [List.cons_append, lookup_flag_cons_miss p _ k (of_decide_eq_false hd)]
      exact ih h

theorem lookup_flag_set_true (l : List (String × Bool)) (k : String) :
    lookup_flag (set_flag l k true) k = true := by
  unfold set_flag
  by_cases h : l.any (fun p => p.1 = k)
  · rw [if_pos h]; exact lookup_map_set l k h
  · rw [if_neg h]
    exact lookup_append_new l k (Bool.not_eq_true _ ▸ eq_false_of_ne_true h)

theorem sessions_done_mark (d : String) (l : List MowerSession)
    (h : (l.find? (fun sess => sess.devices.contains d)).isSome = true) :
    (mark_setup d l).any
      (fun sess => sess.devices.contains d && lookup_flag sess.communication_setup d) = true := by
  induction l with
  | nil => simp [List.find?] at h
  | cons sess rest ih =>
    by_cases h1 : sess.devices.contains d = true
    · unfold mark_setup
      rw [if_pos h1]
      simp only [List.any_cons]
      have hmarked :
          (({ sess with communication_setup := set_flag sess.communication_setup d true } :
            MowerSession).devices.contains d
            && lookup_flag ({ sess with
                 communication_setup := set_flag sess.communication_setup d true } :
                 MowerSession).communication_setup d) = true := by
        dsimp only
        rw [h1, lookup_flag_set_true]
        rfl
      rw [hmarked, Bool.true_or]
    · unfold mark_setup
      rw [if_neg h1]
      have hb : sess.devices.contains d = false := by
        revert h1; cases sess.devices.contains d <;> simp
      have h2 : (rest.find? (fun sess => sess.devices.contains d)).isSome = true := by
        rw [List.find?_cons, hb] at h
        exact h
      simp only [List.any_cons]
      rw [ih h2, Bool.or_true]

theorem ensure_done (env : Env) (d : String) (s : St) (dev : DeviceEntry)
    (hdev : get_device s d = Except.ok dev) (hc : dev.hasCloud = true)
    (h : bootstrapDone s d = true) :
    ensure_device_communication env d s = (Except.ok (), s) := by
  unfold ensure_device_communication
  rw [hdev]
  dsimp only
  rw [if_neg (by simp [hc]), if_pos h]

/-- C3, amended: a dispatch whose send fails with a cloud error code other
than 29003 performs no token refresh and no retry: the `SetupException` is
re-raised unchanged to the caller, exactly one send attempt having been
logged and no further trace outcome consumed. -/
theorem C3_amended (env : Env) (fuel : Nat) (s : St) (d : String) (cmd : MowerCommand)
    (dev : DeviceEntry) (pcmd : String) (c : Int) (iot : String) (rest : List CallOutcome)
    (hdev : get_device s d = Except.ok dev) (hc : dev.hasCloud = true)
    (hboot : bootstrapDone s d = true)
    (hmap : command_map cmd.command = some pcmd)
    (htr : s.trace = CallOutcome.fail (PyError.setup c iot) :: rest)
    (h29 : ¬ c = 29003) :
    execute_command env (fuel + 1) d cmd s =
      (Except.error (PyError.setup c iot),
       { s with trace := rest, log := Ev.call pcmd cmd.parameters :: s.log }) := by
  unfold execute_command execute_command_body
  rw [hdev]
  dsimp only
  rw [if_neg (by simp [hc]), ensure_done env d s dev hdev hc hboot]
  dsimp only [andThen]
  rw [hmap]
  dsimp only
  unfold cloud_call
  rw [htr]
  dsimp only [andThen]
  rw [if_neg h29]

/-- C3 witness: the amended theorem applied at the concrete state whose
send fails with error code 555. -/
theorem C3_amended_witness :
    execute_command env0 5 "Luba-1" startCmd s3_state =
      (Except.error (PyError.setup 555 "iot-1"),
       { s3_state with trace := okRounds 3,
                       log := Ev.call "start_job" [] :: s3_state.log }) :=
  C3_amended env0 4 s3_state "Luba-1" startCmd dev1 "start_job" 555 "iot-1" (okRounds 3)
    (by decide) (by decide) (by decide) (by decide) (by decide) (by decide)

/-- C4, amended: one bootstrap pass in which every attempt succeeds sends
exactly six sub-commands in the exact order `sync(3)`, `stop-report-config`,
`get-report-config`, `rtk-pairing(1)`, `sync(3)`, `rtk-pairing(1)` — each
wrapped individually in the backoff executor with `maxRetries = 3` and
`initialDelay = 2s` and followed by a 1-second pacing sleep (the event
block `boot_log`) — clears the device's `stopped` flag, and records the
setup as done on the first session holding the device, making the
bootstrap-done guard true. -/
theorem C4_amended (env : Env) (s : St) (d : String) (dev : DeviceEntry) (rest : List CallOutcome)
    (hdev : get_device s d = Except.ok dev) (hc : dev.hasCloud = true)
    (hboot : bootstrapDone s d = false)
    (htr : s.trace = okRounds 6 ++ rest) :
    ensure_device_communication env d s =
      (Except.ok (),
       { s with trace := rest,
                log := boot_log.reverse ++ s.log,
                active_sessions := mark_setup d s.active_sessions,
                device_manager := set_stopped d false s.device_manager }) ∧
    ((find_session_for s d).isSome = true →
      bootstrapDone
        { s with trace := rest,
                 log := boot_log.reverse ++ s.log,
                 active_sessions := mark_setup d s.active_sessions,
                 device_manager := set_stopped d false s.device_manager } d = true) := by
  constructor
  · rcases s with ⟨tr, lg, sess, mgr, cache, stamp⟩
    simp only at htr
    subst htr
    unfold ensure_device_communication
    rw [hdev]
    dsimp only
    rw [if_neg (by simp [hc]), if_neg (by simp [hboot])]
    rfl
  · intro hf
    unfold bootstrapDone
    dsimp only
    exact sessions_done_mark d s.active_sessions hf

/-- C4 witness: the amended theorem applied at the concrete
not-yet-bootstrapped state with six successful outcomes queued. -/
theorem C4_amended_witness :
    ensure_device_communication env0 "Luba-1" (fresh_state 6) =
      (Except.ok (),
       { fresh_state 6 with
           trace := [],
           log := boot_log.reverse ++ (fresh_state 6).log,
           active_sessions := mark_setup "Luba-1" (fresh_state 6).active_sessions,
           device_manager := set_stopped "Luba-1" false (fresh_state 6).device_manager }) ∧
    bootstrapDone
      { fresh_state 6 with
          trace := [],
          log := boot_log.reverse ++ (fresh_state 6).log,
          active_sessions := mark_setup "Luba-1" (fresh_state 6).active_sessions,
          device_manager := set_stopped "Luba-1" false (fresh_state 6).device_manager }
      "Luba-1" = true := by
  have h := C4_amended env0 (fresh_state 6) "Luba-1" dev1 []
    (by decide) (by decide) (by decide) (by decide)
  exact ⟨h.1, h.2 (by decide)⟩

/-- C5, amended: when the first bootstrap step exhausts its three backoff
attempts on generic errors, the last error propagates out of
`_ensure_device_communication` and out of the dispatch — the requested
command is never sent (the log gains exactly the three attempts and the two
backoff sleeps), and the bootstrap-done guard remains false. -/
theorem C5_amended (env : Env) (fuel : Nat) (s : St) (d : String) (cmd : MowerCommand)
    (dev : DeviceEntry) (m1 m2 m3 : String) (rest : List CallOutcome)
    (hdev : get_device s d = Except.ok dev) (hc : dev.hasCloud = true)
    (hboot : bootstrapDone s d = false)
    (htr : s.trace = CallOutcome.fail (PyError.other m1) :: CallOutcome.fail (PyError.other m2)
             :: CallOutcome.fail (PyError.other m3) :: rest) :
    execute_command env (fuel + 1) d cmd s =
      (Except.error (PyError.other m3),
       { s with trace := rest,
                log := Ev.call "send_todev_ble_sync" [("sync_type", 3)]
                  :: Ev.sleep (realized_sleep env.draw true (backoff_delay 2 10 1))
                  :: Ev.call "send_todev_ble_sync" [("sync_type", 3)]
                  :: Ev.sleep (realized_sleep env.draw true (backoff_delay 2 10 0))
                  :: Ev.call "send_todev_ble_sync" [("sync_type", 3)] :: s.log,
                device_manager := set_stopped d false s.device_manager }) ∧
    bootstrapDone
      { s with trace := rest,
               log := Ev.call "send_todev_ble_sync" [("sync_type", 3)]
                 :: Ev.sleep (realized_sleep env.draw true (backoff_delay 2 10 1))
                 :: Ev.call "send_todev_ble_sync" [("sync_type", 3)]
                 :: Ev.sleep (realized_sleep env.draw true (backoff_delay 2 10 0))
                 :: Ev.call "send_todev_ble_sync" [("sync_type", 3)] :: s.log,
               device_manager := set_stopped d false s.device_manager } d = false := by
  constructor
  · rcases s with ⟨tr, lg, sess, mgr, cache, stamp⟩
    simp only at htr
    subst htr
    unfold execute_command execute_command_body
    rw [hdev]
    dsimp only
    rw [if_neg (by simp [hc])]
    unfold ensure_device_communication
    rw [hdev]
    dsimp only
    rw [if_neg (by simp [hc]), if_neg (by simp [hboot])]
    rfl
  · exact hboot

/-- C5 witness: the amended theorem applied at the concrete state whose
first bootstrap command fails three times. -/
theorem C5_amended_witness :
    execute_command env0 5 "Luba-1" startCmd s5_state =
      (Except.error (PyError.other "boom3"),
       { s5_state with trace := [],
                       log := Ev.call "send_todev_ble_sync" [("sync_type", 3)]
                         :: Ev.sleep (realized_sleep env0.draw true (backoff_delay 2 10 1))
                         :: Ev.call "send_todev_ble_sync" [("sync_type", 3)]
                         :: Ev.sleep (realized_sleep env0.draw true (backoff_delay 2 10 0))
                         :: Ev.call "send_todev_ble_sync" [("sync_type", 3)] :: s5_state.log,
                       device_manager := set_stopped "Luba-1" false s5_state.device_manager }) :=
  (C5_amended env0 4 s5_state "Luba-1" startCmd dev1 "boom1" "boom2" "boom3" []
    (by decide) (by decide) (by decide) (by decide)).1

/-- C6, amended: dispatching to a nonexistent device fails fast with the
device-not-found error and leaves the state untouched — zero collaborator
calls; dispatching an unknown command kind fails with "Unknown command"
without sending the command itself, but only after the
device-communication setup has run, which on a fresh device issues the six
bootstrap sub-commands (so not zero collaborator calls). -/
theorem C6_amended :
    (∀ (env : Env) (fuel : Nat) (s : St) (d : String) (cmd : MowerCommand),
       s.device_manager.find? (fun dv => dv.name = d) = none →
       execute_command env (fuel + 1) d cmd s =
         (Except.error (PyError.other ("Device '" ++ d ++ "' not found")), s)) ∧
    ((execute_command env0 5 "Luba-1" flyCmd (fresh_state 6)).1
        = Except.error (PyError.other "Unknown command: fly") ∧
     call_names (execute_command env0 5 "Luba-1" flyCmd (fresh_state 6)).2.log =
       ["send_todev_ble_sync", "get_report_cfg_stop", "get_report_cfg",
        "read_and_set_rtk_paring_code", "send_todev_ble_sync",
        "read_and_set_rtk_paring_code"]) := by
  constructor
  · intro env fuel s d cmd h
    have hg : get_device s d
        = Except.error (PyError.other ("Device '" ++ d ++ "' not found")) := by
      unfold get_device
      rw [h]
    unfold execute_command execute_command_body
    rw [hg]
  · exact ⟨by decide, by decide⟩

/-- C6 witness: the universally quantified device-not-found half of the
amended theorem applied to a device name absent from the device manager. -/
theorem C6_amended_witness :
    execute_command env0 4 "Ghost-9" startCmd ghost_state =
      (Except.error (PyError.other "Device 'Ghost-9' not found"), ghost_state) :=
  C6_amended.1 env0 3 ghost_state "Ghost-9" startCmd (by decide)

theorem collaborator_calls_cons_call (n : String) (args : List (String × Int)) (lg : List Ev) :
    collaborator_calls (Ev.call n args :: lg) = collaborator_calls lg + 1 := by
  simp [collaborator_calls, List.filter_cons]

theorem collaborator_calls_cons_sleep (d : ℚ) (lg : List Ev) :
    collaborator_calls (Ev.sleep d :: lg) = collaborator_calls lg := by
  simp [collaborator_calls, List.filter_cons]

/-- C7: when every handshake step succeeds but the session response
carries a blank `identityId`, `authenticate_user` fails with the error
"identityId is missing from session response" — it does not return a
session id, and `active_sessions` is unchanged, so no usable session is
produced for the caller. -/
theorem C7_identity_missing (env : Env) (a p : String) (s : St) (rest : List CallOutcome)
    (hli : env.loginInfoPresent = true)
    (hsr : env.sessionRespPresent = true)
    (hid : env.identityId = "")
    (htr : s.trace = okRounds 7 ++ rest) :
    authenticate_user env a p s =
      (Except.error (PyError.other "identityId is missing from session response"),
       { s with trace := rest, log := handshake_log.reverse ++ s.log }) ∧
    (authenticate_user env a p s).2.active_sessions = s.active_sessions := by
  have hmain : authenticate_user env a p s =
      (Except.error (PyError.other "identityId is missing from session response"),
       { s with trace := rest, log := handshake_log.reverse ++ s.log }) := by
    unfold authenticate_user
    rw [backoff3_ok env "login" [] 2 10 true s (okRounds 6 ++ rest) (by rw [htr]; rfl)]
    dsimp only [andThen]
    rw [if_neg (by simp [hli])]
    rw [establish_ok env
      { s with trace := okRounds 6 ++ rest, log := Ev.call "login" [] :: s.log } rest rfl]
    dsimp only [andThen]
    unfold create_mqtt_client
    rw [if_neg (by simp [hsr]), if_pos hid]
    rfl
  exact ⟨hmain, by rw [hmain]⟩

/-- C7 witness: the theorem applied at a concrete environment whose
handshake succeeds with a blank identity. -/
theorem C7_identity_missing_witness :
    authenticate_user { env0 with identityId := "" } "alice" "pw" (fresh_state 7) =
      (Except.error (PyError.other "identityId is missing from session response"),
       { fresh_state 7 with trace := [],
                            log := handshake_log.reverse ++ (fresh_state 7).log }) :=
  (C7_identity_missing { env0 with identityId := "" } "alice" "pw" (fresh_state 7) []
    rfl rfl rfl (by decide)).1

theorem backoffAux_fail_last (env : Env) (name : String) (args : List (String × Int))
    (mr : Nat) (idl mdl : ℚ) (jit : Bool) (rem att : Nat) (e : PyError) (s : St)
    (rest : List CallOutcome)
    (htr : s.trace = CallOutcome.fail e :: rest) (heq : att = mr - 1) :
    backoffAux env (cloud_call name args) mr idl mdl jit (rem + 1) att s =
      (Except.error e, { s with trace := rest, log := Ev.call name args :: s.log }) := by
  rcases s with ⟨tr, lg, sess, mgr, cache, stamp⟩
  simp only at htr
  subst htr
  conv_lhs => rw [backoffAux]
  have hcc : cloud_call name args
      { trace := CallOutcome.fail e :: rest, log := lg, active_sessions := sess,
        device_manager := mgr, device_cache := cache, next_stamp := stamp } =
      (Except.error e,
       { trace := rest, log := Ev.call name args :: lg, active_sessions := sess,
         device_manager := mgr, device_cache := cache, next_stamp := stamp }) := rfl
  rw [hcc]
  dsimp only
  rw [if_pos heq]

theorem backoffAux_fail_step (env : Env) (name : String) (args : List (String × Int))
    (mr : Nat) (idl mdl : ℚ) (jit : Bool) (rem att : Nat) (e : PyError) (s : St)
    (rest : List CallOutcome)
    (htr : s.trace = CallOutcome.fail e :: rest) (hne : ¬ att = mr - 1) :
    backoffAux env (cloud_call name args) mr idl mdl jit (rem + 1) att s =
      backoffAux env (cloud_call name args) mr idl mdl jit rem (att + 1)
        (push_sleep (realized_sleep env.draw jit (backoff_delay idl mdl att))
          { s with trace := rest, log := Ev.call name args :: s.log }) := by
  rcases s with ⟨tr, lg, sess, mgr, cache, stamp⟩
  simp only at htr
  subst htr
  conv_lhs => rw [backoffAux]
  have hcc : cloud_call name args
      { trace := CallOutcome.fail e :: rest, log := lg, active_sessions := sess,
        device_manager := mgr, device_cache := cache, next_stamp := stamp } =
      (Except.error e,
       { trace := rest, log := Ev.call name args :: lg, active_sessions := sess,
         device_manager := mgr, device_cache := cache, next_stamp := stamp }) := rfl
  rw [hcc]
  dsimp only
  rw [if_neg hne]

theorem backoffAux_exhaust (env : Env) (name : String) (args : List (String × Int))
    (idl mdl : ℚ) (jit : Bool) :
    ∀ (errs : List PyError) (e : PyError) (att mr : Nat) (s : St) (rest : List CallOutcome),
      mr = att + errs.length + 1 →
      s.trace = (errs ++ [e]).map CallOutcome.fail ++ rest →
      (backoffAux env (cloud_call name args) mr idl mdl jit (errs.length + 1) att s).1
        = Except.error e ∧
      (backoffAux env (cloud_call name args) mr idl mdl jit (errs.length + 1) att s).2.trace
        = rest ∧
      collaborator_calls
        (backoffAux env (cloud_call name args) mr idl mdl jit (errs.length + 1) att s).2.log
        = collaborator_calls s.log + (errs.length + 1) := by
  intro errs
  induction errs with
  | nil =>
    intro e att mr s rest hmr htr
    simp only [List.length_nil] at hmr ⊢
    simp only [List.nil_append, List.map_cons, List.map_nil, List.cons_append] at htr
    rw [backoffAux_fail_last env name args mr idl mdl jit 0 att e s rest htr (by omega)]
    exact ⟨rfl, rfl, collaborator_calls_cons_call name args s.log⟩
  | cons e1 errs ih =>
    intro e att mr s rest hmr htr
    simp only [List.length_cons] at hmr ⊢
    simp only [List.cons_append, List.map_cons] at htr
    rw [backoffAux_fail_step env name args mr idl mdl jit (errs.length + 1) att e1 s
      ((errs ++ [e]).map CallOutcome.fail ++ rest) htr (by omega)]
    have h := ih e (att + 1) mr
      (push_sleep (realized_sleep env.draw jit (backoff_delay idl mdl att))
        { s with trace := (errs ++ [e]).map CallOutcome.fail ++ rest,
                 log := Ev.call name args :: s.log })
      rest (by omega) rfl
    refine ⟨h.1, h.2.1, ?_⟩
    rw [h.2.2]
    simp only [push_sleep]
    rw [collaborator_calls_cons_sleep, collaborator_calls_cons_call]
    omega

/-- C8: when an operation fails on every attempt, `exponential_backoff`
with `max_retries = errs.length + 1` invokes the collaborator exactly
`max_retries` times (the collaborator-call count grows by exactly that
number and exactly that many outcomes are consumed) and then propagates the
final attempt's error unchanged — the result is the very error value of the
last attempt, not a wrapper. -/
theorem C8_exhaustion (env : Env) (name : String) (args : List (String × Int))
    (idl mdl : ℚ) (jit : Bool) (errs : List PyError) (e : PyError) (s : St)
    (rest : List CallOutcome)
    (htr : s.trace = (errs ++ [e]).map CallOutcome.fail ++ rest) :
    (exponential_backoff env (cloud_call name args) (errs.length + 1) idl mdl jit s).1
      = Except.error e ∧
    collaborator_calls
      (exponential_backoff env (cloud_call name args) (errs.length + 1) idl mdl jit s).2.log
      = collaborator_calls s.log + (errs.length + 1) ∧
    (exponential_backoff env (cloud_call name args) (errs.length + 1) idl mdl jit s).2.trace
      = rest := by
  have h := backoffAux_exhaust env name args idl mdl jit errs e 0 (errs.length + 1) s rest
    (by omega) htr
  unfold exponential_backoff
  rw [show errs.length + 1 = 0 + errs.length + 1 from by omega] at h ⊢
  exact ⟨h.1, h.2.2, h.2.1⟩

/-- C9: the computed backoff delay before retry `i` equals
`min(initial_delay * 2 ^ i, max_delay)`, hence never exceeds `max_delay`;
and with jitter enabled the realized sleep — `uniform(0.5 * delay, delay)`,
modelled by any draw function that respects its bounds — lies within
`[0.5 * delay, delay]`. -/
theorem C9_delay_bounds (initial_delay max_delay : ℚ) (i : Nat) (draw : ℚ → ℚ → ℚ)
    (hinit : 0 ≤ initial_delay) (hmax : 0 ≤ max_delay)
    (hdraw : ∀ a b : ℚ, a ≤ b → a ≤ draw a b ∧ draw a b ≤ b) :
    backoff_delay initial_delay max_delay i = min (initial_delay * 2 ^ i) max_delay ∧
    backoff_delay initial_delay max_delay i ≤ max_delay ∧
    (1 : ℚ)/2 * backoff_delay initial_delay max_delay i
      ≤ realized_sleep draw true (backoff_delay initial_delay max_delay i) ∧
    realized_sleep draw true (backoff_delay initial_delay max_delay i)
      ≤ backoff_delay initial_delay max_delay i := by
  have hd0 : 0 ≤ backoff_delay initial_delay max_delay i := by
    unfold backoff_delay
    exact le_min (by positivity) hmax
  have hhalf : (1 : ℚ)/2 * backoff_delay initial_delay max_delay i
      ≤ backoff_delay initial_delay max_delay i := by linarith
  have hdr := hdraw _ _ hhalf
  refine ⟨rfl, min_le_right _ _, ?_, ?_⟩
  · unfold realized_sleep
    simpa using hdr.1
  · unfold realized_sleep
    simpa using hdr.2

theorem register_devices_fst (names : List String) :
    ∀ mgr, (register_devices names mgr).1 = names.filter compatible := by
  induction names with
  | nil => intro mgr; rfl
  | cons n rest ih =>
    intro mgr
    unfold register_devices
    by_cases h : compatible n
    · rw [if_pos h]
      dsimp only
      rcases hr : register_devices rest
          (if mgr.any (fun d => d.name = n) = true then mgr
           else mgr ++ [{ name := n, hasCloud := true, stopped := true }]) with ⟨ns, mgr2⟩
      rw [hr]
      dsimp only
      have hi := ih (if mgr.any (fun d => d.name = n) = true then mgr
        else mgr ++ [{ name := n, hasCloud := true, stopped := true }])
      rw [hr] at hi
      dsimp only at hi
      rw [hi, List.filter_cons, if_pos h]
    · rw [if_neg h]
      rw [ih mgr, List.filter_cons, if_neg h]

theorem register_devices_names (names : List String) :
    ∀ (mgr : List DeviceEntry) (x : String),
      x ∈ ((register_devices names mgr).2.map (fun d => d.name)) ↔
        (x ∈ mgr.map (fun d => d.name) ∨ (x ∈ names ∧ compatible x = true)) := by
  induction names with
  | nil => intro mgr x; simp [register_devices]
  | cons n rest ih =>
    intro mgr x
    unfold register_devices
    by_cases h : compatible n
    · rw [if_pos h]
      dsimp only
      rcases hr : register_devices rest
          (if mgr.any (fun d => d.name = n) = true then mgr
           else mgr ++ [{ name := n, hasCloud := true, stopped := true }]) with ⟨ns, mgr2⟩
      rw [hr]
      dsimp only
      have hm := ih (if mgr.any (fun d => d.name = n) = true then mgr
        else mgr ++ [{ name := n, hasCloud := true, stopped := true }]) x
      rw [hr] at hm
      dsimp only at hm
      have hmm : x ∈ (if mgr.any (fun d => d.name = n) = true then mgr
          else mgr ++ [{ name := n, hasCloud := true, stopped := true }]).map (fun d => d.name)
          ↔ x ∈ mgr.map (fun d => d.name) ∨ x = n := by
        by_cases ha : mgr.any (fun d => d.name = n) = true
        · rw [if_pos ha]
          constructor
          · exact fun hx => Or.inl hx
          · rintro (hx | rfl)
            · exact hx
            · simp only [List.any_eq_true] at ha
              obtain ⟨dv, hdv, hnm⟩ := ha
              simp only [List.mem_map]
              exact ⟨dv, hdv, by simpa using hnm⟩
        · rw [if_neg ha]
          simp [List.map_append]
      rw [hm, hmm]
      constructor
      · rintro ((hx | rfl) | ⟨hx, hc⟩)
        · exact Or.inl hx
        · exact Or.inr ⟨List.mem_cons_self _ _, h⟩
        · exact Or.inr ⟨List.mem_cons_of_mem _ hx, hc⟩
      · rintro (hx | ⟨hx, hc⟩)
        · exact Or.inl (Or.inl hx)
        · rcases List.mem_cons.mp hx with rfl | hx2
          · exact Or.inl (Or.inr rfl)
          · exact Or.inr ⟨hx2, hc⟩
    · rw [if_neg h]
      rw [ih mgr x]
      constructor
      · rintro (hx | ⟨hx, hc⟩)
        · exact Or.inl hx
        · exact Or.inr ⟨List.mem_cons_of_mem _ hx, hc⟩
      · rintro (hx | ⟨hx, hc⟩)
        · exact Or.inl hx
        · rcases List.mem_cons.mp hx with rfl | hx2
          · exact absurd hc (by simpa using h)
          · exact Or.inr ⟨hx2, hc⟩

/-- C10: `_create_device_managers` returns exactly the account device
names starting with "Luba-" or "Yuka-" (in order), the device manager
afterwards contains exactly the old names plus the compatible account
names, and when the account has no compatible device a successful
handshake still ends with `authenticate_user` failing with "No compatible
devices found for this account" and an unchanged session store — no
session identifier is produced. -/
theorem C10_device_filter :
    (∀ (env : Env) (s : St),
       (create_device_managers env s).1
         = Except.ok (env.accountDevices.filter compatible)) ∧
    (∀ (env : Env) (s : St) (x : String),
       x ∈ ((create_device_managers env s).2.device_manager.map (fun d => d.name)) ↔
         (x ∈ s.device_manager.map (fun d => d.name) ∨
          (x ∈ env.accountDevices ∧ compatible x = true))) ∧
    (∀ (env : Env) (a p : String) (s : St) (rest : List CallOutcome),
       env.loginInfoPresent = true → env.sessionRespPresent = true →
       ¬ env.identityId = "" → env.accountDevices.filter compatible = [] →
       s.trace = okRounds 7 ++ rest →
       (authenticate_user env a p s).1
         = Except.error (PyError.other "No compatible devices found for this account") ∧
       (authenticate_user env a p s).2.active_sessions = s.active_sessions) := by
  refine ⟨?_, ?_, ?_⟩
  · intro env s
    unfold create_device_managers
    dsimp only
    rw [register_devices_fst]
  · intro env s x
    unfold create_device_managers
    dsimp only
    exact register_devices_names env.accountDevices s.device_manager x
  · intro env a p s rest hli hsr hid hfil htr
    have hmain : authenticate_user env a p s =
        (Except.error (PyError.other "No compatible devices found for this account"),
         { s with trace := rest, log := (handshake_log ++ [Ev.connectAsync]).reverse ++ s.log,
                  device_manager := (register_devices env.accountDevices s.device_manager).2 }) := by
      unfold authenticate_user
      rw [backoff3_ok env "login" [] 2 10 true s (okRounds 6 ++ rest) (by rw [htr]; rfl)]
      dsimp only [andThen]
      rw [if_neg (by simp [hli])]
      rw [establish_ok env
        { s with trace := okRounds 6 ++ rest, log := Ev.call "login" [] :: s.log } rest rfl]
      dsimp only [andThen]
      unfold create_mqtt_client
      rw [if_neg (by simp [hsr]), if_neg hid]
      dsimp only [andThen]
      unfold create_device_managers
      dsimp only
      rw [register_devices_fst, hfil]
      rfl
    exact ⟨by rw [hmain], by rw [hmain]⟩

/-- C10 witness: the theorem applied at a mixed device list (two
compatible, one not) and at an account with no compatible device. -/
theorem C10_device_filter_witness :
    (create_device_managers { env0 with accountDevices := ["Luba-7", "toaster", "Yuka-2"] }
        (fresh_state 0)).1 = Except.ok ["Luba-7", "Yuka-2"] ∧
    (authenticate_user { env0 with accountDevices := ["toaster"] } "alice" "pw"
        (fresh_state 7)).1
      = Except.error (PyError.other "No compatible devices found for this account") ∧
    (authenticate_user { env0 with accountDevices := ["toaster"] } "alice" "pw"
        (fresh_state 7)).2.active_sessions = (fresh_state 7).active_sessions := by
  refine ⟨?_, ?_, ?_⟩
  · have h := C10_device_filter.1 { env0 with accountDevices := ["Luba-7", "toaster", "Yuka-2"] }
      (fresh_state 0)
    rw [h]
    decide
  · exact (C10_device_filter.2.2 { env0 with accountDevices := ["toaster"] } "alice" "pw"
      (fresh_state 7) [] rfl rfl (by decide) (by decide) (by decide)).1
  · exact (C10_device_filter.2.2 { env0 with accountDevices := ["toaster"] } "alice" "pw"
      (fresh_state 7) [] rfl rfl (by decide) (by decide) (by decide)).2


/-- C8 witness: the theorem applied at a concrete trace of three distinct
failures with `max_retries = 3`: three invocations, and the third error is
returned unchanged. -/
theorem C8_exhaustion_witness :
    (exponential_backoff env0 (cloud_call "login" []) 3 2 10 true s8_state).1
      = Except.error (PyError.other "e3") ∧
    collaborator_calls
      (exponential_backoff env0 (cloud_call "login" []) 3 2 10 true s8_state).2.log = 3 ∧
    (exponential_backoff env0 (cloud_call "login" []) 3 2 10 true s8_state).2.trace = [] :=
  C8_exhaustion env0 "login" [] 2 10 true [PyError.other "e1", PyError.other "e2"]
    (PyError.other "e3") s8_state [] (by decide)

/-- C9 witness: the theorem applied at `initial_delay = 2`,
`max_delay = 10`, attempt 3, with the draw function returning the lower
bound. -/
theorem C9_delay_bounds_witness :
    (0 : ℚ) ≤ 2 ∧ (0 : ℚ) ≤ 10 ∧
    (backoff_delay 2 10 3 = min ((2 : ℚ) * 2 ^ 3) 10 ∧
     backoff_delay 2 10 3 ≤ 10 ∧
     (1 : ℚ)/2 * backoff_delay 2 10 3
       ≤ realized_sleep (fun a _ => a) true (backoff_delay 2 10 3) ∧
     realized_sleep (fun a _ => a) true (backoff_delay 2 10 3) ≤ backoff_delay 2 10 3) :=
  ⟨by norm_num, by norm_num,
   C9_delay_bounds 2 10 3 (fun a _ => a) (by norm_num) (by norm_num)
     (fun a b hab => ⟨le_refl a, hab⟩)⟩

theorem count_calls_cons_miss (q n : String) (args : List (String × Int)) (lg : List Ev)
    (h : ¬ n = q) : count_calls (Ev.call n args :: lg) q = count_calls lg q := by
  simp [count_calls, List.filter_cons, h]

theorem count_calls_cons_sleep (q : String) (d : ℚ) (lg : List Ev) :
    count_calls (Ev.sleep d :: lg) q = count_calls lg q := by
  simp [count_calls, List.filter_cons]

theorem count_calls_cons_connect (q : String) (lg : List Ev) :
    count_calls (Ev.connectAsync :: lg) q = count_calls lg q := by
  simp [count_calls, List.filter_cons]

theorem count_cloud_call_miss (n : String) (args : List (String × Int)) (q : String)
    (s : St) (h : ¬ n = q) :
    count_calls ((cloud_call n args s).2).log q = count_calls s.log q := by
  unfold cloud_call
  rcases s with ⟨tr, lg, sess, mgr, cache, stamp⟩
  cases tr with
  | nil => exact count_calls_cons_miss q n args lg h
  | cons o rest => cases o <;> exact count_calls_cons_miss q n args lg h

theorem count_cloud_call_hit (n : String) (args : List (String × Int)) (s : St) :
    count_calls ((cloud_call n args s).2).log n = count_calls s.log n + 1 := by
  unfold cloud_call
  rcases s with ⟨tr, lg, sess, mgr, cache, stamp⟩
  cases tr with
  | nil => exact count_calls_cons_hit lg n args
  | cons o rest => cases o <;> exact count_calls_cons_hit lg n args

theorem count_backoffAux {α : Type} (env : Env) (op : St → Except PyError α × St)
    (mr : Nat) (idl mdl : ℚ) (jit : Bool) (q : String)
    (hop : ∀ s, count_calls ((op s).2).log q = count_calls s.log q) :
    ∀ (rem att : Nat) (s : St),
      count_calls ((backoffAux env op mr idl mdl jit rem att s).2).log q
        = count_calls s.log q := by
  intro rem
  induction rem with
  | zero => intro att s; rfl
  | succ r ih =>
    intro att s
    have h1 := hop s
    unfold backoffAux
    rcases hop2 : op s with ⟨r0, s1⟩
    rw [hop2] at h1
    cases r0 with
    | ok a => exact h1
    | error e =>
      dsimp only
      by_cases hatt : att = mr - 1
      · rw [if_pos hatt]; exact h1
      · rw [if_neg hatt]
        rw [ih (att + 1) (push_sleep _ s1)]
        exact (count_calls_cons_sleep q _ _).trans h1

theorem count_exponential_backoff {α : Type} (env : Env) (op : St → Except PyError α × St)
    (mr : Nat) (idl mdl : ℚ) (jit : Bool) (q : String)
    (hop : ∀ s, count_calls ((op s).2).log q = count_calls s.log q) (s : St) :
    count_calls ((exponential_backoff env op mr idl mdl jit s).2).log q
      = count_calls s.log q :=
  count_backoffAux env op mr idl mdl jit q hop mr 0 s

theorem count_andThen {α β : Type} (q : String) (g : St → Except PyError α × St)
    (f : α → St → Except PyError β × St)
    (hg : ∀ s, count_calls ((g s).2).log q = count_calls s.log q)
    (hf : ∀ a s, count_calls ((f a s).2).log q = count_calls s.log q) (s : St) :
    count_calls ((andThen (g s) f).2).log q = count_calls s.log q := by
  have h := hg s
  rcases hgs : g s with ⟨r, s1⟩
  rw [hgs] at h
  cases r with
  | error e => simpa [andThen] using h
  | ok a =>
    simp only [andThen]
    rw [hf a s1]
    exact h

theorem count_establish (env : Env) (q : String) (hq : q ∉ internal_call_names) (s : St) :
    count_calls ((establish_cloud_connection env s).2).log q = count_calls s.log q := by
  have hne : ∀ n, n ∈ internal_call_names → ¬ n = q := fun n hn he => hq (he ▸ hn)
  have hbo : ∀ (n : String) (args : List (String × Int)), ¬ n = q → ∀ (s : St),
      count_calls ((exponential_backoff env (cloud_call n args) 3 2 10 true s).2).log q
        = count_calls s.log q :=
    fun n args hn s => count_exponential_backoff env _ 3 2 10 true q
      (fun s => count_cloud_call_miss n args q s hn) s
  have hbos : ∀ (n : String) (args : List (String × Int)), ¬ n = q → ∀ (s : St),
      count_calls ((exponential_backoff env (cloud_call n args) 3 2 10 true
        (push_sleep ((1 : ℚ)/2) s)).2).log q = count_calls s.log q :=
    fun n args hn s => (hbo n args hn (push_sleep _ s)).trans (count_calls_cons_sleep q _ _)
  unfold establish_cloud_connection
  exact count_andThen q
    (exponential_backoff env (cloud_call "get_region" []) 3 2 10 true) _
    (hbo "get_region" [] (hne _ (by decide))) (fun _ s =>
      count_andThen q
        (fun s => exponential_backoff env (cloud_call "connect" []) 3 2 10 true (push_sleep ((1 : ℚ)/2) s)) _
        (hbos "connect" [] (hne _ (by decide))) (fun _ s =>
          count_andThen q
            (fun s => exponential_backoff env (cloud_call "login_by_oauth" []) 3 2 10 true (push_sleep ((1 : ℚ)/2) s)) _
            (hbos "login_by_oauth" [] (hne _ (by decide))) (fun _ s =>
              count_andThen q
                (fun s => exponential_backoff env (cloud_call "aep_handle" []) 3 2 10 true (push_sleep ((1 : ℚ)/2) s)) _
                (hbos "aep_handle" [] (hne _ (by decide))) (fun _ s =>
                  count_andThen q
                    (fun s => exponential_backoff env (cloud_call "session_by_auth_code" []) 3 2 10 true (push_sleep ((1 : ℚ)/2) s)) _
                    (hbos "session_by_auth_code" [] (hne _ (by decide))) (fun _ s =>
                      count_andThen q
                        (fun s => exponential_backoff env (cloud_call "get_all_error_codes" []) 3 2 10 true (push_sleep ((1 : ℚ)/2) s)) _
                        (hbos "get_all_error_codes" [] (hne _ (by decide))) (fun _ s => rfl) s) s) s) s) s) s

theorem count_create_mqtt (env : Env) (s : St) (q : String) :
    count_calls ((create_mqtt_client env s).2).log q = count_calls s.log q := by
  unfold create_mqtt_client
  split_ifs <;> rfl

theorem run_sync_count (env : Env) (q : String) (hq : q ∉ internal_call_names) :
    ∀ (cmds : List (String × List (String × Int))),
      (∀ c ∈ cmds, c.1 ∈ internal_call_names) →
      ∀ s, count_calls ((run_sync_commands env cmds s).2).log q = count_calls s.log q := by
  intro cmds
  induction cmds with
  | nil => intro _ s; rfl
  | cons c rest ih =>
    intro hmem s
    rcases c with ⟨cname, cargs⟩
    unfold run_sync_commands
    have hg : ∀ s, count_calls
        ((exponential_backoff env (cloud_call cname cargs) 3 2 10 true s).2).log q
        = count_calls s.log q :=
      fun s => count_exponential_backoff env _ 3 2 10 true q
        (fun s => count_cloud_call_miss cname cargs q s
          (fun he => hq (he ▸ hmem (cname, cargs) (List.mem_cons_self _ _)))) s
    exact count_andThen q (exponential_backoff env (cloud_call cname cargs) 3 2 10 true) _
      hg (fun _ s =>
        (ih (fun c hc => hmem c (List.mem_cons_of_mem _ hc)) (push_sleep 1 s)).trans
          (count_calls_cons_sleep q 1 s.log)) s

theorem run_sync_sessions (env : Env) :
    ∀ (cmds : List (String × List (String × Int))) (s : St),
      ((run_sync_commands env cmds s).2).active_sessions = s.active_sessions := by
  intro cmds
  induction cmds with
  | nil => intro s; rfl
  | cons c rest ih =>
    intro s
    rcases c with ⟨cname, cargs⟩
    unfold run_sync_commands
    exact andThen_sessions (exponential_backoff env (cloud_call cname cargs) 3 2 10 true) _
      (fun s => exponential_backoff_sessions env _ 3 2 10 true (cloud_call_sessions _ _) s)
      (fun _ s => ih (push_sleep 1 s)) s

theorem ensure_count (env : Env) (d : String) (s : St) (q : String)
    (hq : q ∉ internal_call_names) :
    count_calls ((ensure_device_communication env d s).2).log q = count_calls s.log q := by
  unfold ensure_device_communication
  cases hg : get_device s d with
  | error e => rfl
  | ok dev =>
    dsimp only
    by_cases hc : dev.hasCloud = false
    · rw [if_pos hc]
    · rw [if_neg hc]
      by_cases hb : bootstrapDone s d
      · rw [if_pos hb]
      · rw [if_neg hb]
        have hrun := run_sync_count env q hq sync_commands (by decide)
          { s with device_manager := set_stopped d false s.device_manager }
        rcases hr : run_sync_commands env sync_commands
          { s with device_manager := set_stopped d false s.device_manager } with ⟨r, s1⟩
        rw [hr] at hrun
        cases r with
        | error e => simp only [andThen]; exact hrun
        | ok u => simp only [andThen]; exact hrun

theorem ensure_sessions_nil (env : Env) (d : String) (s : St)
    (h : s.active_sessions = []) :
    ((ensure_device_communication env d s).2).active_sessions = [] := by
  unfold ensure_device_communication
  cases hg : get_device s d with
  | error e => exact h
  | ok dev =>
    dsimp only
    by_cases hc : dev.hasCloud = false
    · rw [if_pos hc]; exact h
    · rw [if_neg hc]
      by_cases hb : bootstrapDone s d
      · rw [if_pos hb]; exact h
      · rw [if_neg hb]
        rcases hr : run_sync_commands env sync_commands
          { s with device_manager := set_stopped d false s.device_manager } with ⟨r, s1⟩
        have hs1 : s1.active_sessions = [] := by
          have hh := run_sync_sessions env sync_commands
            { s with device_manager := set_stopped d false s.device_manager }
          rw [hr] at hh
          rw [hh]
          exact h
        cases r with
        | error e => simp only [andThen]; exact hs1
        | ok u =>
          simp only [andThen]
          rw [hs1]
          rfl

theorem bootstrapDone_nil (s : St) (d : String) (h : s.active_sessions = []) :
    bootstrapDone s d = false := by
  unfold bootstrapDone
  rw [h]
  rfl

/-- Every name `command_map` can produce is distinct from every
collaborator-operation name the service issues internally. -/
theorem mapped_not_internal (c p : String) (h : command_map c = some p) :
    p ∉ internal_call_names := by
  unfold command_map at h
  split_ifs at h <;>
    first
      | (injection h with h2; subst h2; decide)
      | exact Option.noConfusion h

/-- Anatomy of `authenticate_user`: it always fails (every terminal branch
errors — at the latest `_create_session`'s `ValidationError`), it never
changes `active_sessions` (the store happens after the raising
constructor), and it adds no collaborator call named outside
`internal_call_names`. -/
theorem authenticate_anatomy (env : Env) (a p : String) (s : St) (q : String)
    (hq : q ∉ internal_call_names) :
    (∃ e, (authenticate_user env a p s).1 = Except.error e) ∧
    ((authenticate_user env a p s).2).active_sessions = s.active_sessions ∧
    count_calls ((authenticate_user env a p s).2).log q = count_calls s.log q := by
  unfold authenticate_user
  rcases h1 : exponential_backoff env (cloud_call "login" []) 3 2 10 true s with ⟨r1, s1⟩
  have e1 : s1.active_sessions = s.active_sessions := by
    have h := exponential_backoff_sessions env _ 3 2 10 true (cloud_call_sessions "login" []) s
    rw [h1] at h; exact h
  have c1 : count_calls s1.log q = count_calls s.log q := by
    have h := count_exponential_backoff env _ 3 2 10 true q
      (fun s => count_cloud_call_miss "login" [] q s
        (fun he => hq (he ▸ (by decide : "login" ∈ internal_call_names)))) s
    rw [h1] at h; exact h
  cases r1 with
  | error e =>
    exact ⟨⟨e, by simp [andThen]⟩, by simpa [andThen] using e1, by simpa [andThen] using c1⟩
  | ok u =>
    simp only [andThen]
    by_cases hli : env.loginInfoPresent = false
    · rw [if_pos hli]
      exact ⟨⟨_, rfl⟩, e1, c1⟩
    · rw [if_neg hli]
      rcases h2 : establish_cloud_connection env s1 with ⟨r2, s2⟩
      have e2 : s2.active_sessions = s.active_sessions := by
        have h := establish_sessions env s1
        rw [h2] at h; rw [h, e1]
      have c2 : count_calls s2.log q = count_calls s.log q := by
        have h := count_establish env q hq s1
        rw [h2] at h; rw [h, c1]
      cases r2 with
      | error e =>
        exact ⟨⟨e, by simp [andThen]⟩, by simpa [andThen] using e2, by simpa [andThen] using c2⟩
      | ok u2 =>
        simp only [andThen]
        rcases h3 : create_mqtt_client env s2 with ⟨r3, s3⟩
        have e3 : s3.active_sessions = s.active_sessions := by
          have h := create_mqtt_sessions env s2
          rw [h3] at h; rw [h, e2]
        have c3 : count_calls s3.log q = count_calls s.log q := by
          have h := count_create_mqtt env s2 q
          rw [h3] at h; rw [h, c2]
        cases r3 with
        | error e =>
          exact ⟨⟨e, by simp [andThen]⟩, by simpa [andThen] using e3, by simpa [andThen] using c3⟩
        | ok u3 =>
          simp only [andThen, create_device_managers]
          by_cases hde : ((register_devices env.accountDevices s3.device_manager).1).isEmpty = true
          · rw [if_pos hde]
            exact ⟨⟨_, rfl⟩, e3, c3⟩
          · rw [if_neg hde]
            exact ⟨⟨_, rfl⟩, e3, c3⟩

/-- Anatomy of `_refresh_cloud_session`: it always fails (either no session
holds the device, or the re-authentication fails), never changes
`active_sessions`, and adds no call named outside `internal_call_names`. -/
theorem refresh_anatomy (env : Env) (d : String) (s : St) (q : String)
    (hq : q ∉ internal_call_names) :
    (∃ e, (refresh_cloud_session env d s).1 = Except.error e) ∧
    ((refresh_cloud_session env d s).2).active_sessions = s.active_sessions ∧
    count_calls ((refresh_cloud_session env d s).2).log q = count_calls s.log q := by
  unfold refresh_cloud_session
  cases hg : get_device s d with
  | error e => exact ⟨⟨e, rfl⟩, rfl, rfl⟩
  | ok dev =>
    dsimp only
    cases hf : find_session_for s d with
    | none => exact ⟨⟨_, rfl⟩, rfl, rfl⟩
    | some sess =>
      obtain ⟨⟨e, he⟩, hsess, hcount⟩ := authenticate_anatomy env sess.account sess.password s q hq
      rcases ha : authenticate_user env sess.account sess.password s with ⟨r, s1⟩
      rw [ha] at he hsess hcount
      cases r with
      | error e2 =>
        refine ⟨⟨e2, ?_⟩, ?_, ?_⟩
        · simp only [andThen, ha]
        · simp only [andThen, ha]
          exact hsess
        · simp only [andThen, ha]
          exact hcount
      | ok v => simp at he

/-- One bootstrap pass in which every attempt succeeds: trace consumed,
`boot_log` emitted, `stopped` cleared and the first session holding the
device marked (a no-op marking when no session lists the device). -/
theorem ensure_bootstrap_run (env : Env) (s : St) (d : String) (dev : DeviceEntry)
    (rest : List CallOutcome)
    (hdev : get_device s d = Except.ok dev) (hc : dev.hasCloud = true)
    (hboot : bootstrapDone s d = false)
    (htr : s.trace = okRounds 6 ++ rest) :
    ensure_device_communication env d s =
      (Except.ok (),
       { s with trace := rest,
                log := boot_log.reverse ++ s.log,
                active_sessions := mark_setup d s.active_sessions,
                device_manager := set_stopped d false s.device_manager }) := by
  rcases s with ⟨tr, lg, sess, mgr, cache, stamp⟩
  simp only at htr
  subst htr
  unfold ensure_device_communication
  rw [hdev]
  dsimp only
  rw [if_neg (by simp [hc]), if_neg (by simp [hboot])]
  rfl

/-- Chronological call names of an appended (newest-first) log. -/
theorem call_names_append (a b : List Ev) :
    call_names (a ++ b) = call_names b ++ call_names a := by
  simp [call_names, List.reverse_append, List.filterMap_append]

/-- The recursive retry in `execute_command` never actually recurs: on a
29003-classified failure the recovery call always errors, so the result of
a dispatch does not depend on any retry budget beyond one attempt. -/
theorem execute_fuel_irrelevant (env : Env) (d : String) (cmd : MowerCommand) (s : St)
    (fuel : Nat) :
    execute_command env (fuel + 1) d cmd s = execute_command env 1 d cmd s := by
  show _ = execute_command env (0 + 1) d cmd s
  rw [execute_command, execute_command]
  rcases hb : execute_command_body env d cmd s with ⟨r, s1⟩
  cases r with
  | ok b => rfl
  | error e =>
    cases e with
    | other m => rfl
    | setup c iot =>
      dsimp only
      by_cases h29 : c = 29003
      · rw [if_pos h29, if_pos h29]
        obtain ⟨⟨e2, he2⟩, _, _⟩ := refresh_anatomy env d s1 "" (by decide)
        rcases hr : refresh_cloud_session env d s1 with ⟨rr, s2⟩
        rw [hr] at he2
        cases rr with
        | error e3 => simp only [andThen, hr]
        | ok u => simp at he2
      · rw [if_neg h29, if_neg h29]

theorem execute_body_count (env : Env) (d : String) (cmd : MowerCommand) (s : St)
    (pcmd : String) (hmap : command_map cmd.command = some pcmd) :
    count_calls ((execute_command_body env d cmd s).2).log pcmd
      ≤ count_calls s.log pcmd + 1 := by
  have hp : pcmd ∉ internal_call_names := mapped_not_internal cmd.command pcmd hmap
  unfold execute_command_body
  cases hg : get_device s d with
  | error e => exact Nat.le_add_right _ 1
  | ok dev =>
    dsimp only
    by_cases hc : dev.hasCloud = false
    · rw [if_pos hc]; exact Nat.le_add_right _ 1
    · rw [if_neg hc]
      have hens := ensure_count env d s pcmd hp
      rcases he : ensure_device_communication env d s with ⟨r1, s1⟩
      rw [he] at hens
      cases r1 with
      | error e =>
        simp only [andThen]
        rw [hens]
        exact Nat.le_add_right _ 1
      | ok u =>
        simp only [andThen]
        rw [hmap]
        dsimp only
        have hcc := count_cloud_call_hit pcmd cmd.parameters s1
        rcases hc2 : cloud_call pcmd cmd.parameters s1 with ⟨r2, s2⟩
        rw [hc2] at hcc
        cases r2 with
        | error e =>
          simp only [andThen]
          rw [hcc, hens]
        | ok u2 =>
          simp only [andThen]
          rw [hcc, hens]

/-- One `execute_command` call sends the mapped command at most once,
whatever the fuel, the environment and the state. -/
theorem execute_count (env : Env) (fuel : Nat) (d : String) (cmd : MowerCommand) (s : St)
    (pcmd : String) (hmap : command_map cmd.command = some pcmd) :
    count_calls ((execute_command env fuel d cmd s).2).log pcmd
      ≤ count_calls s.log pcmd + 1 := by
  have hp : pcmd ∉ internal_call_names := mapped_not_internal cmd.command pcmd hmap
  cases fuel with
  | zero => exact Nat.le_add_right _ 1
  | succ f =>
    rw [execute_command]
    have hbody := execute_body_count env d cmd s pcmd hmap
    rcases hb : execute_command_body env d cmd s with ⟨r, s1⟩
    rw [hb] at hbody
    cases r with
    | ok b => exact hbody
    | error e =>
      cases e with
      | other m => exact hbody
      | setup c iot =>
        dsimp only
        by_cases h29 : c = 29003
        · rw [if_pos h29]
          obtain ⟨⟨e2, he2⟩, _, hcnt⟩ := refresh_anatomy env d s1 pcmd hp
          rcases hr : refresh_cloud_session env d s1 with ⟨rr, s2⟩
          rw [hr] at he2 hcnt
          cases rr with
          | error e3 =>
            simp only [andThen, hr]
            rw [show count_calls s2.log pcmd = count_calls s1.log pcmd from hcnt]
            exact hbody
          | ok u => simp at he2
        · rw [if_neg h29]
          exact hbody

/-- Dispatch from a state with an empty session store (the only kind
reachable in the running program) leaves the session store empty — the
29003 recovery path included. -/
theorem execute_sessions_nil (env : Env) (fuel : Nat) (d : String) (cmd : MowerCommand)
    (s : St) (h : s.active_sessions = []) :
    ((execute_command env fuel d cmd s).2).active_sessions = [] := by
  cases fuel with
  | zero => exact h
  | succ f =>
    rw [execute_command]
    have hbody : ((execute_command_body env d cmd s).2).active_sessions = [] := by
      unfold execute_command_body
      cases hg : get_device s d with
      | error e => exact h
      | ok dev =>
        dsimp only
        by_cases hc : dev.hasCloud = false
        · rw [if_pos hc]; exact h
        · rw [if_neg hc]
          have hens := ensure_sessions_nil env d s h
          rcases he : ensure_device_communication env d s with ⟨r1, s1⟩
          rw [he] at hens
          cases r1 with
          | error e => simp only [andThen]; exact hens
          | ok u =>
            simp only [andThen]
            cases hm : command_map cmd.command with
            | none => exact hens
            | some pcmd =>
              dsimp only
              have hcs := cloud_call_sessions pcmd cmd.parameters s1
              rcases hc2 : cloud_call pcmd cmd.parameters s1 with ⟨r2, s2⟩
              rw [hc2] at hcs
              cases r2 with
              | error e => simp only [andThen]; rw [hcs]; exact hens
              | ok u2 => simp only [andThen]; rw [hcs]; exact hens
    rcases hb : execute_command_body env d cmd s with ⟨r, s1⟩
    rw [hb] at hbody
    cases r with
    | ok b => exact hbody
    | error e =>
      cases e with
      | other m => exact hbody
      | setup c iot =>
        dsimp only
        by_cases h29 : c = 29003
        · rw [if_pos h29]
          obtain ⟨⟨e2, he2⟩, hsess, _⟩ := refresh_anatomy env d s1 "" (by decide)
          rcases hr : refresh_cloud_session env d s1 with ⟨rr, s2⟩
          rw [hr] at he2 hsess
          cases rr with
          | error e3 =>
            simp only [andThen, hr]
            rw [show s2.active_sessions = s1.active_sessions from hsess]
            exact hbody
          | ok u => simp at he2
        · rw [if_neg h29]
          exact hbody

/-- C1: on a 29003-classified cloud error the dispatcher does not resend in
place but invokes `_refresh_cloud_session`, and only a successful recovery
would trigger the single full retry at `service.py` line 247.  Recovery can
never succeed: `authenticate_user` always fails — at the latest when
`_create_session`'s Pydantic `MowerSession` construction raises its
`ValidationError` — so the retry never happens.  Consequently the result of
a dispatch is independent of any retry budget beyond one attempt (the
recursion never recurs, so nothing retries indefinitely), and one
`execute_command` call performs at most one send of the mapped command —
within the claimed bound of two. -/
theorem C1_bounded :
    (∀ (env : Env) (a p : String) (s : St),
       ∃ e, (authenticate_user env a p s).1 = Except.error e) ∧
    (∀ (env : Env) (d : String) (s : St),
       ∃ e, (refresh_cloud_session env d s).1 = Except.error e) ∧
    (∀ (env : Env) (fuel : Nat) (d : String) (cmd : MowerCommand) (s : St),
       execute_command env (fuel + 1) d cmd s = execute_command env 1 d cmd s) ∧
    (∀ (env : Env) (fuel : Nat) (d : String) (cmd : MowerCommand) (s : St) (pcmd : String),
       command_map cmd.command = some pcmd →
       count_calls ((execute_command env fuel d cmd s).2).log pcmd
         ≤ count_calls s.log pcmd + 1) := by
  refine ⟨?_, ?_, ?_, ?_⟩
  · exact fun env a p s => (authenticate_anatomy env a p s "" (by decide)).1
  · exact fun env d s => (refresh_anatomy env d s "" (by decide)).1
  · exact fun env fuel d cmd s => execute_fuel_irrelevant env d cmd s fuel
  · exact fun env fuel d cmd s pcmd hmap => execute_count env fuel d cmd s pcmd hmap

/-- C1 witness: the send-attempt bound applied at a concrete dispatch whose
send fails with a 29003-classified error. -/
theorem C1_bounded_witness :
    count_calls ((execute_command env0 5 "Luba-1" startCmd s3_state).2).log "start_job"
      ≤ count_calls s3_state.log "start_job" + 1 :=
  C1_bounded.2.2.2 env0 5 "Luba-1" startCmd s3_state "start_job" (by decide)

/-- C2: in the running program no bootstrap-done flag can survive — or even
exist.  `authenticate_user` never stores a session (`_create_session`
raises before the store), recovery and dispatch leave the session store
unchanged, so from the empty session store every reachable state has an
empty session store; there the bootstrap-done guard is false for every
device, and the next dispatch after a 29003-triggered recovery attempt runs
the full six-command bootstrap sequence again before sending. -/
theorem C2_bootstrap_rerun :
    (∀ (env : Env) (a p : String) (s : St),
       ((authenticate_user env a p s).2).active_sessions = s.active_sessions) ∧
    (∀ (env : Env) (d : String) (s : St),
       ((refresh_cloud_session env d s).2).active_sessions = s.active_sessions) ∧
    (∀ (env : Env) (fuel : Nat) (d : String) (cmd : MowerCommand) (s : St),
       s.active_sessions = [] →
       ((execute_command env fuel d cmd s).2).active_sessions = []) ∧
    (∀ (s : St) (d : String), s.active_sessions = [] → bootstrapDone s d = false) ∧
    (∀ (env : Env) (d : String) (s : St) (dev : DeviceEntry) (rest : List CallOutcome),
       s.active_sessions = [] → get_device s d = Except.ok dev → dev.hasCloud = true →
       s.trace = okRounds 6 ++ rest →
       call_names ((ensure_device_communication env d s).2).log
         = call_names s.log ++
           ["send_todev_ble_sync", "get_report_cfg_stop", "get_report_cfg",
            "read_and_set_rtk_paring_code", "send_todev_ble_sync",
            "read_and_set_rtk_paring_code"]) := by
  refine ⟨?_, ?_, ?_, ?_, ?_⟩
  · exact fun env a p s => (authenticate_anatomy env a p s "" (by decide)).2.1
  · exact fun env d s => (refresh_anatomy env d s "" (by decide)).2.1
  · exact fun env fuel d cmd s h => execute_sessions_nil env fuel d cmd s h
  · exact fun s d h => bootstrapDone_nil s d h
  · intro env d s dev rest hnil hdev hc htr
    have hb := bootstrapDone_nil s d hnil
    have hrun := ensure_bootstrap_run env s d dev rest hdev hc hb htr
    rw [hrun]
    dsimp only
    rw [call_names_append]
    have hsix : call_names boot_log.reverse =
        ["send_todev_ble_sync", "get_report_cfg_stop", "get_report_cfg",
         "read_and_set_rtk_paring_code", "send_todev_ble_sync",
         "read_and_set_rtk_paring_code"] := by decide
    rw [hsix]

/-- C2 witness: the theorem applied at a concrete state with an empty
session store, a registered cloud device, and six successful outcomes
queued. -/
theorem C2_bootstrap_rerun_witness :
    ((execute_command env0 3 "Luba-1" startCmd nosess_state).2).active_sessions = [] ∧
    bootstrapDone nosess_state "Luba-1" = false ∧
    call_names ((ensure_device_communication env0 "Luba-1" nosess_state).2).log
      = call_names nosess_state.log ++
        ["send_todev_ble_sync", "get_report_cfg_stop", "get_report_cfg",
         "read_and_set_rtk_paring_code", "send_todev_ble_sync",
         "read_and_set_rtk_paring_code"] :=
  ⟨C2_bootstrap_rerun.2.2.1 env0 3 "Luba-1" startCmd nosess_state (by decide),
   C2_bootstrap_rerun.2.2.2.1 nosess_state "Luba-1" (by decide),
   C2_bootstrap_rerun.2.2.2.2 env0 "Luba-1" nosess_state dev1 [] (by decide) (by decide)
     (by decide) (by decide)⟩

end MowthosOS
